import Mathlib

/-!
Shallow embedding of `qiskit/quantum_info/operators/tolerances.py`.

The Python module defines a metaclass `TolerancesMeta` that attaches
class-level tolerance state (`_ATOL_DEFAULT`, `_RTOL_DEFAULT`, `_MAX_TOL`)
to every class created with it, together with validated class-property
setters, and a mixin `TolerancesMixin` giving instances read-only
forwarding properties `atol`/`rtol` and deprecated class methods
`set_atol`/`set_rtol`.

Tolerance values are embedded as rationals (`ℚ`): every constant involved
(1e-8, 1e-5, 1e-4) is exactly representable, and the code only compares
and stores values.  Raising an exception is embedded as returning the
unchanged state paired with `some` error: in the source, the `raise`
inside `_check_value` happens before the assignment statement, so the
stored value is untouched on failure.
-/

/-- Modelled from the spec: the library-wide default absolute tolerance
constant `ATOL_DEFAULT`, imported by the source from
`qiskit.quantum_info.operators.predicates`, a module not present here.
The spec gives its value as 1e-8. -/
def ATOL_DEFAULT : ℚ := 1e-8

/-- Modelled from the spec: the library-wide default relative tolerance
constant `RTOL_DEFAULT`, imported by the source from
`qiskit.quantum_info.operators.predicates`, a module not present here.
The spec gives its value as 1e-5. -/
def RTOL_DEFAULT : ℚ := 1e-5

/-- The exception type raised by `_check_value` (`QiskitError` in the
source); it carries the formatted message string. -/
structure QiskitError where
  message : String

/-- Python `AttributeError`, raised when assigning through a property
that has no setter. -/
structure AttributeError where
  message : String

/-- Warning categories; the deprecated setters pass `DeprecationWarning`. -/
inductive WarningCategory where
  | DeprecationWarning

/-- A warning emitted via `warnings.warn(message, category)`. -/
structure Warning where
  message : String
  category : WarningCategory

/-- The class-level tolerance store that `TolerancesMeta.__init__`
installs on each class: the three attributes it assigns. -/
structure ToleranceState where
  _ATOL_DEFAULT : ℚ
  _RTOL_DEFAULT : ℚ
  _MAX_TOL : ℚ

namespace TolerancesMeta

/-- `TolerancesMeta.__init__`: runs at class definition time and sets
`cls._ATOL_DEFAULT = ATOL_DEFAULT`, `cls._RTOL_DEFAULT = RTOL_DEFAULT`,
`cls._MAX_TOL = 1e-4`. -/
def init : ToleranceState :=
  { _ATOL_DEFAULT := ATOL_DEFAULT
    _RTOL_DEFAULT := RTOL_DEFAULT
    _MAX_TOL := 1e-4 }

/-- `TolerancesMeta._check_value(cls, value, value_name)`: returns the
raised `QiskitError` if the value is out of range, `none` when the check
passes.  The message strings follow the two `format` calls in the source. -/
def _check_value (cls : ToleranceState) (value : ℚ) (value_name : String) :
    Option QiskitError :=
  if value < 0 then
    some ⟨"Invalid " ++ value_name ++ " (" ++ toString value ++
      ") must be non-negative."⟩
  else if value > cls._MAX_TOL then
    some ⟨"Invalid " ++ value_name ++ " (" ++ toString value ++
      ") must be less than " ++ toString cls._MAX_TOL ++ "."⟩
  else
    none

/-- The `atol` class-property getter: returns `cls._ATOL_DEFAULT`. -/
def atol_get (cls : ToleranceState) : ℚ := cls._ATOL_DEFAULT

/-- The `rtol` class-property getter: returns `cls._RTOL_DEFAULT`. -/
def rtol_get (cls : ToleranceState) : ℚ := cls._RTOL_DEFAULT

/-- The `atol` class-property setter: `cls._check_value(value, "atol")`
then `cls._ATOL_DEFAULT = value`.  A raised error propagates before the
assignment runs, so on failure the state is returned unchanged. -/
def atol_set (cls : ToleranceState) (value : ℚ) :
    ToleranceState × Option QiskitError :=
  match _check_value cls value ("atol") with
  | some e => (cls, some e)
  | none => ({ cls with _ATOL_DEFAULT := value }, none)

/-- The `rtol` class-property setter: `cls._check_value(value, "rtol")`
then `cls._RTOL_DEFAULT = value`. -/
def rtol_set (cls : ToleranceState) (value : ℚ) :
    ToleranceState × Option QiskitError :=
  match _check_value cls value ("rtol") with
  | some e => (cls, some e)
  | none => ({ cls with _RTOL_DEFAULT := value }, none)

end TolerancesMeta

/-- A Python property descriptor over class-level state `σ` producing `α`:
a getter, and an optional setter (`@property` alone gives `fset = None`). -/
structure PyProperty (σ α : Type) where
  fget : σ → α
  fset : Option (σ → α → σ)

/-- Python attribute assignment through a data descriptor: a property
whose `fset` is `None` raises `AttributeError` and performs no mutation;
otherwise the setter runs. -/
def PyProperty.setattr {σ α : Type} (p : PyProperty σ α) (s : σ) (v : α) :
    σ × Option AttributeError :=
  match p.fset with
  | none => (s, some ⟨"cant set attribute"⟩)
  | some f => (f s v, none)

namespace TolerancesMixin

/-- `TolerancesMixin.atol` (instance read): `return self.__class__.atol`,
i.e. the metaclass getter applied to the instance's class state. -/
def atol (cls : ToleranceState) : ℚ := TolerancesMeta.atol_get cls

/-- `TolerancesMixin.rtol` (instance read): `return self.__class__.rtol`. -/
def rtol (cls : ToleranceState) : ℚ := TolerancesMeta.rtol_get cls

/-- The `atol` property object on `TolerancesMixin`: declared with
`@property` only, so it has no setter. -/
def atol_property : PyProperty ToleranceState ℚ :=
  { fget := TolerancesMeta.atol_get, fset := none }

/-- The `rtol` property object on `TolerancesMixin`: declared with
`@property` only, so it has no setter. -/
def rtol_property : PyProperty ToleranceState ℚ :=
  { fget := TolerancesMeta.rtol_get, fset := none }

/-- The deprecation message of `set_atol`, formatted with
`cls.__name__` exactly as in the source. -/
def set_atol_msg (clsName : String) : String :=
  "`" ++ clsName ++ ".set_atol` method is deprecated, use `" ++ clsName ++
    ".atol = value` instead."

/-- The deprecation message of `set_rtol`. -/
def set_rtol_msg (clsName : String) : String :=
  "`" ++ clsName ++ ".set_rtol` method is deprecated, use `" ++ clsName ++
    ".rtol = value` instead."

/-- `TolerancesMixin.set_atol(cls, value)`: warns with
`DeprecationWarning`, then performs `cls.atol = value` (the metaclass
setter).  Output: the warnings emitted, the resulting class state, and
the raised error if any. -/
def set_atol (clsName : String) (cls : ToleranceState) (value : ℚ) :
    List Warning × (ToleranceState × Option QiskitError) :=
  ([{ message := set_atol_msg clsName, category := .DeprecationWarning }],
    TolerancesMeta.atol_set cls value)

/-- `TolerancesMixin.set_rtol(cls, value)`: warns, then `cls.rtol = value`. -/
def set_rtol (clsName : String) (cls : ToleranceState) (value : ℚ) :
    List Warning × (ToleranceState × Option QiskitError) :=
  ([{ message := set_rtol_msg clsName, category := .DeprecationWarning }],
    TolerancesMeta.rtol_set cls value)

end TolerancesMixin

/-- The per-class state of all classes using the metaclass, indexed by
class name (each class object carries its own attribute dict). -/
abbrev FamilyMap := String → ToleranceState

/-- Defining a class `F` with metaclass `TolerancesMeta` (directly or as
a subclass of a participating class) runs `TolerancesMeta.__init__`,
which installs fresh default attributes in `F`'s own dict. -/
def defineFamily (fams : FamilyMap) (F : String) : FamilyMap :=
  Function.update fams F TolerancesMeta.init

/-- Class-level read `F.atol`. -/
def getFamilyAtol (fams : FamilyMap) (F : String) : ℚ :=
  TolerancesMeta.atol_get (fams F)

/-- Class-level read `F.rtol`. -/
def getFamilyRtol (fams : FamilyMap) (F : String) : ℚ :=
  TolerancesMeta.rtol_get (fams F)

/-- Class-level assignment `F.atol = v`: runs the metaclass setter on
`F`'s own state; all other classes' state is untouched. -/
def setFamilyAtol (fams : FamilyMap) (F : String) (v : ℚ) :
    FamilyMap × Option QiskitError :=
  (Function.update fams F (TolerancesMeta.atol_set (fams F) v).1,
    (TolerancesMeta.atol_set (fams F) v).2)

/-- Class-level assignment `F.rtol = v`. -/
def setFamilyRtol (fams : FamilyMap) (F : String) (v : ℚ) :
    FamilyMap × Option QiskitError :=
  (Function.update fams F (TolerancesMeta.rtol_set (fams F) v).1,
    (TolerancesMeta.rtol_set (fams F) v).2)

/-- An instance of a participating class: it holds no tolerance state of
its own, only its `__class__`. -/
structure PyInstance where
  cls : String

/-- Instance read `i.atol`: forwards to `i.__class__.atol`. -/
def PyInstance.atol (fams : FamilyMap) (i : PyInstance) : ℚ :=
  TolerancesMixin.atol (fams i.cls)

/-- Instance read `i.rtol`: forwards to `i.__class__.rtol`. -/
def PyInstance.rtol (fams : FamilyMap) (i : PyInstance) : ℚ :=
  TolerancesMixin.rtol (fams i.cls)

/-- The operations on one class's tolerance store exposed by the module:
class-property assignments, deprecated setters, and attempted direct
instance assignment. -/
inductive Op where
  | setAtol (v : ℚ)
  | setRtol (v : ℚ)
  | deprecatedSetAtol (clsName : String) (v : ℚ)
  | deprecatedSetRtol (clsName : String) (v : ℚ)
  | instanceSetAtol (v : ℚ)
  | instanceSetRtol (v : ℚ)

/-- The state after performing one operation (a raised error leaves the
state as the operation returned it: unchanged). -/
def stepOp (s : ToleranceState) (op : Op) : ToleranceState :=
  match op with
  | .setAtol v => (TolerancesMeta.atol_set s v).1
  | .setRtol v => (TolerancesMeta.rtol_set s v).1
  | .deprecatedSetAtol n v => (TolerancesMixin.set_atol n s v).2.1
  | .deprecatedSetRtol n v => (TolerancesMixin.set_rtol n s v).2.1
  | .instanceSetAtol v => (PyProperty.setattr TolerancesMixin.atol_property s v).1
  | .instanceSetRtol v => (PyProperty.setattr TolerancesMixin.rtol_property s v).1

/-- Run a sequence of operations on a class's store. -/
def runOps (s : ToleranceState) (ops : List Op) : ToleranceState :=
  ops.foldl stepOp s

/-- The store invariant: the maximum is the fixed constant 1e-4 and both
tolerances lie within `[0, 1e-4]`. -/
def StoreInv (s : ToleranceState) : Prop :=
  s._MAX_TOL = 1e-4 ∧
    0 ≤ s._ATOL_DEFAULT ∧ s._ATOL_DEFAULT ≤ 1e-4 ∧
    0 ≤ s._RTOL_DEFAULT ∧ s._RTOL_DEFAULT ≤ 1e-4

/-- A concrete family map where every class holds the freshly
initialized store; used to instantiate universally quantified results. -/
def initFams : FamilyMap := fun _ => TolerancesMeta.init

/- Helper lemmas about the validation routine and the setters. -/

lemma check_value_valid (s : ToleranceState) (v : ℚ) (name : String)
    (h0 : 0 ≤ v) (h1 : v ≤ s._MAX_TOL) :
    TolerancesMeta._check_value s v name = none := by
  unfold TolerancesMeta._check_value
  rw [if_neg (not_lt.mpr h0), if_neg (not_lt.mpr h1)]

lemma check_value_invalid (s : ToleranceState) (v : ℚ) (name : String)
    (h : v < 0 ∨ s._MAX_TOL < v) :
    ∃ e, TolerancesMeta._check_value s v name = some e := by
  unfold TolerancesMeta._check_value
  by_cases h0 : v < 0
  · rw [if_pos h0]; exact ⟨_, rfl⟩
  · rw [if_neg h0, if_pos (h.resolve_left h0)]; exact ⟨_, rfl⟩

lemma atol_set_valid (s : ToleranceState) (v : ℚ)
    (h0 : 0 ≤ v) (h1 : v ≤ s._MAX_TOL) :
    TolerancesMeta.atol_set s v = ({ s with _ATOL_DEFAULT := v }, none) := by
  unfold TolerancesMeta.atol_set
  rw [check_value_valid s v ("atol") h0 h1]

lemma rtol_set_valid (s : ToleranceState) (v : ℚ)
    (h0 : 0 ≤ v) (h1 : v ≤ s._MAX_TOL) :
    TolerancesMeta.rtol_set s v = ({ s with _RTOL_DEFAULT := v }, none) := by
  unfold TolerancesMeta.rtol_set
  rw [check_value_valid s v ("rtol") h0 h1]

lemma atol_set_invalid (s : ToleranceState) (v : ℚ)
    (h : v < 0 ∨ s._MAX_TOL < v) :
    ∃ e, TolerancesMeta.atol_set s v = (s, some e) := by
  obtain ⟨e, he⟩ := check_value_invalid s v ("atol") h
  exact ⟨e, by unfold TolerancesMeta.atol_set; rw [he]⟩

lemma rtol_set_invalid (s : ToleranceState) (v : ℚ)
    (h : v < 0 ∨ s._MAX_TOL < v) :
    ∃ e, TolerancesMeta.rtol_set s v = (s, some e) := by
  obtain ⟨e, he⟩ := check_value_invalid s v ("rtol") h
  exact ⟨e, by unfold TolerancesMeta.rtol_set; rw [he]⟩

/-- C1: for every family `F` (any class created by the metaclass, so its
store holds `_MAX_TOL = 1e-4`) and every `v` with `0 ≤ v ≤ 1e-4`, the
class-level assignment `F.atol = v` raises no error, and afterwards
reading `F.atol` returns `v` and every existing instance `i` of `F`
observes `i.atol = v`; symmetrically for `rtol`. -/
theorem C1_valid_assignment_updates_family_and_instances
    (fams : FamilyMap) (F : String) (i : PyInstance) (v : ℚ)
    (hM : (fams F)._MAX_TOL = 1e-4) (h0 : 0 ≤ v) (h1 : v ≤ 1e-4)
    (hi : i.cls = F) :
    (setFamilyAtol fams F v).2 = none ∧
    getFamilyAtol (setFamilyAtol fams F v).1 F = v ∧
    PyInstance.atol (setFamilyAtol fams F v).1 i = v ∧
    (setFamilyRtol fams F v).2 = none ∧
    getFamilyRtol (setFamilyRtol fams F v).1 F = v ∧
    PyInstance.rtol (setFamilyRtol fams F v).1 i = v := by
  have h1' : v ≤ (fams F)._MAX_TOL := by rw [hM]; exact h1
  have ha := atol_set_valid (fams F) v h0 h1'
  have hr := rtol_set_valid (fams F) v h0 h1'
  subst hi
  refine ⟨?_, ?_, ?_, ?_, ?_, ?_⟩ <;>
    simp [setFamilyAtol, setFamilyRtol, getFamilyAtol, getFamilyRtol,
      PyInstance.atol, PyInstance.rtol, TolerancesMixin.atol,
      TolerancesMixin.rtol, TolerancesMeta.atol_get, TolerancesMeta.rtol_get,
      ha, hr, Function.update_same]

/-- Witness for C1 at the fresh family map, family `"F"`, an instance of
`"F"`, and `v = 1e-6`. -/
theorem C1_witness :
    (setFamilyAtol initFams ("F") (1e-6)).2 = none ∧
    getFamilyAtol (setFamilyAtol initFams ("F") (1e-6)).1 ("F") = 1e-6 ∧
    PyInstance.atol (setFamilyAtol initFams ("F") (1e-6)).1 ⟨"F"⟩ = 1e-6 ∧
    (setFamilyRtol initFams ("F") (1e-6)).2 = none ∧
    getFamilyRtol (setFamilyRtol initFams ("F") (1e-6)).1 ("F") = 1e-6 ∧
    PyInstance.rtol (setFamilyRtol initFams ("F") (1e-6)).1 ⟨"F"⟩ = 1e-6 :=
  C1_valid_assignment_updates_family_and_instances initFams ("F") ⟨"F"⟩ (1e-6)
    rfl (by norm_num) (by norm_num) rfl

/-- C2: for every `v` with `v < 0` or `v > 1e-4`, the assignment
`F.atol = v` raises a `QiskitError` and leaves the whole family map (in
particular the stored `atol`) unchanged; symmetrically for `rtol`. -/
theorem C2_invalid_assignment_raises_and_preserves
    (fams : FamilyMap) (F : String) (v : ℚ)
    (hM : (fams F)._MAX_TOL = 1e-4) (h : v < 0 ∨ 1e-4 < v) :
    (∃ e, (setFamilyAtol fams F v).2 = some e) ∧
    (setFamilyAtol fams F v).1 = fams ∧
    getFamilyAtol (setFamilyAtol fams F v).1 F = getFamilyAtol fams F ∧
    (∃ e, (setFamilyRtol fams F v).2 = some e) ∧
    (setFamilyRtol fams F v).1 = fams ∧
    getFamilyRtol (setFamilyRtol fams F v).1 F = getFamilyRtol fams F := by
  have h' : v < 0 ∨ (fams F)._MAX_TOL < v := by rw [hM]; exact h
  obtain ⟨ea, hea⟩ := atol_set_invalid (fams F) v h'
  obtain ⟨er, her⟩ := rtol_set_invalid (fams F) v h'
  refine ⟨⟨ea, ?_⟩, ?_, ?_, ⟨er, ?_⟩, ?_, ?_⟩ <;>
    simp [setFamilyAtol, setFamilyRtol, hea, her, Function.update_eq_self]

/-- Witness for C2 at the fresh family map, family `"F"`, and `v = -1`. -/
theorem C2_witness :
    (∃ e, (setFamilyAtol initFams ("F") (-1)).2 = some e) ∧
    (setFamilyAtol initFams ("F") (-1)).1 = initFams ∧
    getFamilyAtol (setFamilyAtol initFams ("F") (-1)).1 ("F") =
      getFamilyAtol initFams ("F") ∧
    (∃ e, (setFamilyRtol initFams ("F") (-1)).2 = some e) ∧
    (setFamilyRtol initFams ("F") (-1)).1 = initFams ∧
    getFamilyRtol (setFamilyRtol initFams ("F") (-1)).1 ("F") =
      getFamilyRtol initFams ("F") :=
  C2_invalid_assignment_raises_and_preserves initFams ("F") (-1)
    rfl (Or.inl (by norm_num))

/- Invariant preservation helpers. -/

lemma atol_set_fst_inv (s : ToleranceState) (v : ℚ) (h : StoreInv s) :
    StoreInv (TolerancesMeta.atol_set s v).1 := by
  obtain ⟨hm, ha0, ha1, hr0, hr1⟩ := h
  by_cases h0 : 0 ≤ v
  · by_cases h1 : v ≤ s._MAX_TOL
    · rw [atol_set_valid s v h0 h1]
      exact ⟨hm, h0, hm ▸ h1, hr0, hr1⟩
    · obtain ⟨e, he⟩ := atol_set_invalid s v (Or.inr (not_le.mp h1))
      rw [he]
      exact ⟨hm, ha0, ha1, hr0, hr1⟩
  · obtain ⟨e, he⟩ := atol_set_invalid s v (Or.inl (not_le.mp h0))
    rw [he]
    exact ⟨hm, ha0, ha1, hr0, hr1⟩

lemma rtol_set_fst_inv (s : ToleranceState) (v : ℚ) (h : StoreInv s) :
    StoreInv (TolerancesMeta.rtol_set s v).1 := by
  obtain ⟨hm, ha0, ha1, hr0, hr1⟩ := h
  by_cases h0 : 0 ≤ v
  · by_cases h1 : v ≤ s._MAX_TOL
    · rw [rtol_set_valid s v h0 h1]
      exact ⟨hm, ha0, ha1, h0, hm ▸ h1⟩
    · obtain ⟨e, he⟩ := rtol_set_invalid s v (Or.inr (not_le.mp h1))
      rw [he]
      exact ⟨hm, ha0, ha1, hr0, hr1⟩
  · obtain ⟨e, he⟩ := rtol_set_invalid s v (Or.inl (not_le.mp h0))
    rw [he]
    exact ⟨hm, ha0, ha1, hr0, hr1⟩

lemma stepOp_inv (s : ToleranceState) (op : Op) (h : StoreInv s) :
    StoreInv (stepOp s op) := by
  cases op with
  | setAtol v => exact atol_set_fst_inv s v h
  | setRtol v => exact rtol_set_fst_inv s v h
  | deprecatedSetAtol n v => exact atol_set_fst_inv s v h
  | deprecatedSetRtol n v => exact rtol_set_fst_inv s v h
  | instanceSetAtol v => exact h
  | instanceSetRtol v => exact h

lemma runOps_inv (ops : List Op) :
    ∀ s : ToleranceState, StoreInv s → StoreInv (runOps s ops) := by
  induction ops with
  | nil => intro s h; exact h
  | cons op rest ih => intro s h; exact ih _ (stepOp_inv s op h)

lemma storeInv_init : StoreInv TolerancesMeta.init := by
  unfold StoreInv TolerancesMeta.init ATOL_DEFAULT RTOL_DEFAULT
  norm_num

/-- C3: starting from the state installed at family definition, the
invariants `0 ≤ _ATOL_DEFAULT ≤ 1e-4`, `0 ≤ _RTOL_DEFAULT ≤ 1e-4` (and
`_MAX_TOL = 1e-4`) hold after any sequence of operations of the store and
the capability, including failed setter calls and failed instance
assignments. -/
theorem C3_tolerance_invariants_hold_at_all_times (ops : List Op) :
    StoreInv (runOps TolerancesMeta.init ops) :=
  runOps_inv ops TolerancesMeta.init storeInv_init

/- `_MAX_TOL` is never mutated. -/

lemma atol_set_fst_max (s : ToleranceState) (v : ℚ) :
    ((TolerancesMeta.atol_set s v).1)._MAX_TOL = s._MAX_TOL := by
  unfold TolerancesMeta.atol_set
  rcases h : TolerancesMeta._check_value s v ("atol") with _ | e <;> simp [h]

lemma rtol_set_fst_max (s : ToleranceState) (v : ℚ) :
    ((TolerancesMeta.rtol_set s v).1)._MAX_TOL = s._MAX_TOL := by
  unfold TolerancesMeta.rtol_set
  rcases h : TolerancesMeta._check_value s v ("rtol") with _ | e <;> simp [h]

lemma stepOp_max (s : ToleranceState) (op : Op) :
    (stepOp s op)._MAX_TOL = s._MAX_TOL := by
  cases op with
  | setAtol v => exact atol_set_fst_max s v
  | setRtol v => exact rtol_set_fst_max s v
  | deprecatedSetAtol n v => exact atol_set_fst_max s v
  | deprecatedSetRtol n v => exact rtol_set_fst_max s v
  | instanceSetAtol v => rfl
  | instanceSetRtol v => rfl

lemma runOps_max (ops : List Op) :
    ∀ s : ToleranceState, (runOps s ops)._MAX_TOL = s._MAX_TOL := by
  induction ops with
  | nil => intro s; rfl
  | cons op rest ih => intro s; rw [runOps, List.foldl_cons, ← runOps, ih, stepOp_max]

/-- C9: a freshly defined family starts with `atol = 1e-8` and
`rtol = 1e-5` (the library-wide defaults) and `_MAX_TOL = 1e-4`; no
exposed operation ever changes `_MAX_TOL`. -/
theorem C9_fresh_family_defaults_and_fixed_maximum :
    TolerancesMeta.atol_get TolerancesMeta.init = 1e-8 ∧
    TolerancesMeta.rtol_get TolerancesMeta.init = 1e-5 ∧
    TolerancesMeta.init._MAX_TOL = 1e-4 ∧
    ∀ ops : List Op, (runOps TolerancesMeta.init ops)._MAX_TOL = 1e-4 :=
  ⟨rfl, rfl, rfl, fun ops => by rw [runOps_max]; rfl⟩

/- The deprecation messages name the class and the replacement syntax. -/

lemma set_atol_msg_names_class (c : String) :
    ∃ a b, TolerancesMixin.set_atol_msg c = a ++ c ++ b := by
  refine ⟨"`", ".set_atol` method is deprecated, use `" ++ c ++
    ".atol = value` instead.", ?_⟩
  unfold TolerancesMixin.set_atol_msg
  simp only [String.append_assoc]

lemma set_atol_msg_names_replacement (c : String) :
    ∃ a b, TolerancesMixin.set_atol_msg c = a ++ ".atol = value" ++ b := by
  refine ⟨"`" ++ c ++ ".set_atol` method is deprecated, use `" ++ c,
    "` instead.", ?_⟩
  unfold TolerancesMixin.set_atol_msg
  simp only [String.append_assoc]
  rfl

lemma set_rtol_msg_names_class (c : String) :
    ∃ a b, TolerancesMixin.set_rtol_msg c = a ++ c ++ b := by
  refine ⟨"`", ".set_rtol` method is deprecated, use `" ++ c ++
    ".rtol = value` instead.", ?_⟩
  unfold TolerancesMixin.set_rtol_msg
  simp only [String.append_assoc]

lemma set_rtol_msg_names_replacement (c : String) :
    ∃ a b, TolerancesMixin.set_rtol_msg c = a ++ ".rtol = value" ++ b := by
  refine ⟨"`" ++ c ++ ".set_rtol` method is deprecated, use `" ++ c,
    "` instead.", ?_⟩
  unfold TolerancesMixin.set_rtol_msg
  simp only [String.append_assoc]
  rfl

/-- C4: every call to the deprecated `set_atol`/`set_rtol` (with any
value, valid or not) emits exactly one warning, a `DeprecationWarning`
whose message names the class and the replacement assignment syntax, and
delegates verbatim to the family-wide class-property setter; in
particular with a valid `v` (`0 <= v <= 1e-4`) the call raises nothing
and afterwards instances read the new value. -/
theorem C4_deprecated_setter_warns_once_and_sets
    (clsName : String) (s : ToleranceState) (v : ℚ) :
    (TolerancesMixin.set_atol clsName s v).1.length = 1 ∧
    (∀ w ∈ (TolerancesMixin.set_atol clsName s v).1,
      w.category = WarningCategory.DeprecationWarning ∧
      (∃ a b, w.message = a ++ clsName ++ b) ∧
      (∃ a b, w.message = a ++ ".atol = value" ++ b)) ∧
    (TolerancesMixin.set_atol clsName s v).2 = TolerancesMeta.atol_set s v ∧
    (TolerancesMixin.set_rtol clsName s v).1.length = 1 ∧
    (∀ w ∈ (TolerancesMixin.set_rtol clsName s v).1,
      w.category = WarningCategory.DeprecationWarning ∧
      (∃ a b, w.message = a ++ clsName ++ b) ∧
      (∃ a b, w.message = a ++ ".rtol = value" ++ b)) ∧
    (TolerancesMixin.set_rtol clsName s v).2 = TolerancesMeta.rtol_set s v ∧
    (s._MAX_TOL = 1e-4 → 0 ≤ v → v ≤ 1e-4 →
      (TolerancesMixin.set_atol clsName s v).2.2 = none ∧
      TolerancesMixin.atol (TolerancesMixin.set_atol clsName s v).2.1 = v ∧
      (TolerancesMixin.set_rtol clsName s v).2.2 = none ∧
      TolerancesMixin.rtol (TolerancesMixin.set_rtol clsName s v).2.1 = v) := by
  refine ⟨rfl, ?_, rfl, rfl, ?_, rfl, ?_⟩
  · intro w hw
    simp only [TolerancesMixin.set_atol, List.mem_singleton] at hw
    subst hw
    exact ⟨rfl, set_atol_msg_names_class clsName,
      set_atol_msg_names_replacement clsName⟩
  · intro w hw
    simp only [TolerancesMixin.set_rtol, List.mem_singleton] at hw
    subst hw
    exact ⟨rfl, set_rtol_msg_names_class clsName,
      set_rtol_msg_names_replacement clsName⟩
  · intro hM h0 h1
    have h1' : v ≤ s._MAX_TOL := le_of_le_of_eq h1 hM.symm
    have ha := atol_set_valid s v h0 h1'
    have hr := rtol_set_valid s v h0 h1'
    refine ⟨?_, ?_, ?_, ?_⟩
    · show (TolerancesMeta.atol_set s v).2 = none
      rw [ha]
    · show TolerancesMixin.atol (TolerancesMeta.atol_set s v).1 = v
      rw [ha]
      rfl
    · show (TolerancesMeta.rtol_set s v).2 = none
      rw [hr]
    · show TolerancesMixin.rtol (TolerancesMeta.rtol_set s v).1 = v
      rw [hr]
      rfl

/-- Witness for C4 at class name `"Operator"`, the fresh store, and
`v = 1e-6`, with the valid-value implication discharged. -/
theorem C4_witness :
    (TolerancesMixin.set_atol ("Operator") TolerancesMeta.init (1e-6)).1.length = 1 ∧
    (∀ w ∈ (TolerancesMixin.set_atol ("Operator") TolerancesMeta.init (1e-6)).1,
      w.category = WarningCategory.DeprecationWarning ∧
      (∃ a b, w.message = a ++ "Operator" ++ b) ∧
      (∃ a b, w.message = a ++ ".atol = value" ++ b)) ∧
    (TolerancesMixin.set_atol ("Operator") TolerancesMeta.init (1e-6)).2 =
      TolerancesMeta.atol_set TolerancesMeta.init (1e-6) ∧
    (TolerancesMixin.set_rtol ("Operator") TolerancesMeta.init (1e-6)).1.length = 1 ∧
    (∀ w ∈ (TolerancesMixin.set_rtol ("Operator") TolerancesMeta.init (1e-6)).1,
      w.category = WarningCategory.DeprecationWarning ∧
      (∃ a b, w.message = a ++ "Operator" ++ b) ∧
      (∃ a b, w.message = a ++ ".rtol = value" ++ b)) ∧
    (TolerancesMixin.set_rtol ("Operator") TolerancesMeta.init (1e-6)).2 =
      TolerancesMeta.rtol_set TolerancesMeta.init (1e-6) ∧
    (TolerancesMixin.set_atol ("Operator") TolerancesMeta.init (1e-6)).2.2 = none ∧
    TolerancesMixin.atol
      (TolerancesMixin.set_atol ("Operator") TolerancesMeta.init (1e-6)).2.1 = 1e-6 ∧
    (TolerancesMixin.set_rtol ("Operator") TolerancesMeta.init (1e-6)).2.2 = none ∧
    TolerancesMixin.rtol
      (TolerancesMixin.set_rtol ("Operator") TolerancesMeta.init (1e-6)).2.1 = 1e-6 := by
  have T := C4_deprecated_setter_warns_once_and_sets ("Operator")
    TolerancesMeta.init (1e-6)
  exact ⟨T.1, T.2.1, T.2.2.1, T.2.2.2.1, T.2.2.2.2.1, T.2.2.2.2.2.1,
    T.2.2.2.2.2.2 rfl (by norm_num) (by norm_num)⟩

/-- C5: calling the deprecated `set_atol` with an invalid `v` (`v < 0` or
`v > 1e-4`) raises a `QiskitError` and leaves the stored tolerances
unchanged; symmetrically for `set_rtol`. -/
theorem C5_deprecated_setter_invalid_raises_and_preserves
    (clsName : String) (s : ToleranceState) (v : ℚ)
    (hM : s._MAX_TOL = 1e-4) (h : v < 0 ∨ 1e-4 < v) :
    (∃ e, (TolerancesMixin.set_atol clsName s v).2.2 = some e) ∧
    (TolerancesMixin.set_atol clsName s v).2.1 = s ∧
    TolerancesMixin.atol (TolerancesMixin.set_atol clsName s v).2.1 =
      TolerancesMixin.atol s ∧
    (∃ e, (TolerancesMixin.set_rtol clsName s v).2.2 = some e) ∧
    (TolerancesMixin.set_rtol clsName s v).2.1 = s ∧
    TolerancesMixin.rtol (TolerancesMixin.set_rtol clsName s v).2.1 =
      TolerancesMixin.rtol s := by
  have h' : v < 0 ∨ s._MAX_TOL < v := by rw [hM]; exact h
  obtain ⟨ea, hea⟩ := atol_set_invalid s v h'
  obtain ⟨er, her⟩ := rtol_set_invalid s v h'
  refine ⟨⟨ea, ?_⟩, ?_, ?_, ⟨er, ?_⟩, ?_, ?_⟩ <;>
    simp [TolerancesMixin.set_atol, TolerancesMixin.set_rtol, hea, her]

/-- Witness for C5 at class name `"Operator"`, the fresh store, and
`v = -1`. -/
theorem C5_witness :
    (∃ e, (TolerancesMixin.set_atol ("Operator") TolerancesMeta.init (-1)).2.2 = some e) ∧
    (TolerancesMixin.set_atol ("Operator") TolerancesMeta.init (-1)).2.1 =
      TolerancesMeta.init ∧
    TolerancesMixin.atol
      (TolerancesMixin.set_atol ("Operator") TolerancesMeta.init (-1)).2.1 =
      TolerancesMixin.atol TolerancesMeta.init ∧
    (∃ e, (TolerancesMixin.set_rtol ("Operator") TolerancesMeta.init (-1)).2.2 = some e) ∧
    (TolerancesMixin.set_rtol ("Operator") TolerancesMeta.init (-1)).2.1 =
      TolerancesMeta.init ∧
    TolerancesMixin.rtol
      (TolerancesMixin.set_rtol ("Operator") TolerancesMeta.init (-1)).2.1 =
      TolerancesMixin.rtol TolerancesMeta.init :=
  C5_deprecated_setter_invalid_raises_and_preserves ("Operator") TolerancesMeta.init (-1)
    rfl (Or.inl (by norm_num))

/-- C6: two distinct families have independent tolerance state: a
class-level assignment on `F1` leaves `F2`'s whole store (both `atol`
and `rtol`) unchanged, and symmetrically. -/
theorem C6_families_have_independent_state
    (fams : FamilyMap) (F1 F2 : String) (v : ℚ) (hne : F1 ≠ F2) :
    (setFamilyAtol fams F1 v).1 F2 = fams F2 ∧
    (setFamilyRtol fams F1 v).1 F2 = fams F2 ∧
    (setFamilyAtol fams F2 v).1 F1 = fams F1 ∧
    (setFamilyRtol fams F2 v).1 F1 = fams F1 := by
  refine ⟨?_, ?_, ?_, ?_⟩ <;>
    simp [setFamilyAtol, setFamilyRtol,
      Function.update_noteq hne, Function.update_noteq (Ne.symm hne)]

/-- Witness for C6 at the fresh family map, families `"F1"` and `"F2"`,
and `v = 1e-6`. -/
theorem C6_witness :
    (setFamilyAtol initFams ("F1") (1e-6)).1 ("F2") = initFams ("F2") ∧
    (setFamilyRtol initFams ("F1") (1e-6)).1 ("F2") = initFams ("F2") ∧
    (setFamilyAtol initFams ("F2") (1e-6)).1 ("F1") = initFams ("F1") ∧
    (setFamilyRtol initFams ("F2") (1e-6)).1 ("F1") = initFams ("F1") :=
  C6_families_have_independent_state initFams ("F1") ("F2") (1e-6) (by decide)

/-- C7: the instance properties `atol`/`rtol` of the mixin have no
setter, so direct assignment on an instance raises `AttributeError` and
leaves the family-wide store unchanged. -/
theorem C7_instance_properties_are_read_only (s : ToleranceState) (v : ℚ) :
    TolerancesMixin.atol_property.fset = none ∧
    PyProperty.setattr TolerancesMixin.atol_property s v =
      (s, some ⟨"cant set attribute"⟩) ∧
    TolerancesMixin.rtol_property.fset = none ∧
    PyProperty.setattr TolerancesMixin.rtol_property s v =
      (s, some ⟨"cant set attribute"⟩) :=
  ⟨rfl, rfl, rfl, rfl⟩

/-- C8: when a setter rejects a value, the raised error's message carries
the parameter name (`atol`/`rtol`), the offending value, and the violated
bound (the phrase `non-negative` for the lower bound, the maximum 1e-4
for the upper bound). -/
theorem C8_rejection_error_carries_diagnostics
    (s : ToleranceState) (v : ℚ) (hM : s._MAX_TOL = 1e-4)
    (h : v < 0 ∨ 1e-4 < v) :
    (∃ e, (TolerancesMeta.atol_set s v).2 = some e ∧
      (∃ a b, e.message = a ++ "atol" ++ b) ∧
      (∃ a b, e.message = a ++ toString v ++ b) ∧
      (∃ a b, e.message =
        a ++ (if v < 0 then "non-negative" else toString (1e-4 : ℚ)) ++ b)) ∧
    (∃ e, (TolerancesMeta.rtol_set s v).2 = some e ∧
      (∃ a b, e.message = a ++ "rtol" ++ b) ∧
      (∃ a b, e.message = a ++ toString v ++ b) ∧
      (∃ a b, e.message =
        a ++ (if v < 0 then "non-negative" else toString (1e-4 : ℚ)) ++ b)) := by
  by_cases h0 : v < 0
  · have hca : TolerancesMeta._check_value s v ("atol") =
        some ⟨"Invalid " ++ "atol" ++ " (" ++ toString v ++
          ") must be non-negative."⟩ := by
      unfold TolerancesMeta._check_value
      rw [if_pos h0]
    have hcr : TolerancesMeta._check_value s v ("rtol") =
        some ⟨"Invalid " ++ "rtol" ++ " (" ++ toString v ++
          ") must be non-negative."⟩ := by
      unfold TolerancesMeta._check_value
      rw [if_pos h0]
    rw [if_pos h0]
    constructor
    · refine ⟨⟨"Invalid " ++ "atol" ++ " (" ++ toString v ++
        ") must be non-negative."⟩, ?_, ?_, ?_, ?_⟩
      · unfold TolerancesMeta.atol_set
        rw [hca]
      · exact ⟨"Invalid ", " (" ++ toString v ++ ") must be non-negative.",
          by simp only [String.append_assoc]⟩
      · exact ⟨"Invalid atol (", ") must be non-negative.",
          by simp only [String.append_assoc]; rfl⟩
      · exact ⟨"Invalid atol (" ++ toString v ++ ") must be ", ".",
          by simp only [String.append_assoc]; rfl⟩
    · refine ⟨⟨"Invalid " ++ "rtol" ++ " (" ++ toString v ++
        ") must be non-negative."⟩, ?_, ?_, ?_, ?_⟩
      · unfold TolerancesMeta.rtol_set
        rw [hcr]
      · exact ⟨"Invalid ", " (" ++ toString v ++ ") must be non-negative.",
          by simp only [String.append_assoc]⟩
      · exact ⟨"Invalid rtol (", ") must be non-negative.",
          by simp only [String.append_assoc]; rfl⟩
      · exact ⟨"Invalid rtol (" ++ toString v ++ ") must be ", ".",
          by simp only [String.append_assoc]; rfl⟩
  · have hgt : s._MAX_TOL < v := by rw [hM]; exact h.resolve_left h0
    have hca : TolerancesMeta._check_value s v ("atol") =
        some ⟨"Invalid " ++ "atol" ++ " (" ++ toString v ++
          ") must be less than " ++ toString (1e-4 : ℚ) ++ "."⟩ := by
      unfold TolerancesMeta._check_value
      rw [if_neg h0, if_pos hgt, hM]
    have hcr : TolerancesMeta._check_value s v ("rtol") =
        some ⟨"Invalid " ++ "rtol" ++ " (" ++ toString v ++
          ") must be less than " ++ toString (1e-4 : ℚ) ++ "."⟩ := by
      unfold TolerancesMeta._check_value
      rw [if_neg h0, if_pos hgt, hM]
    rw [if_neg h0]
    constructor
    · refine ⟨⟨"Invalid " ++ "atol" ++ " (" ++ toString v ++
        ") must be less than " ++ toString (1e-4 : ℚ) ++ "."⟩, ?_, ?_, ?_, ?_⟩
      · unfold TolerancesMeta.atol_set
        rw [hca]
      · exact ⟨"Invalid ", " (" ++ toString v ++ ") must be less than " ++
          toString (1e-4 : ℚ) ++ ".", by simp only [String.append_assoc]⟩
      · exact ⟨"Invalid atol (", ") must be less than " ++
          toString (1e-4 : ℚ) ++ ".", by simp only [String.append_assoc]; rfl⟩
      · exact ⟨"Invalid atol (" ++ toString v ++ ") must be less than ", ".",
          by simp only [String.append_assoc]; rfl⟩
    · refine ⟨⟨"Invalid " ++ "rtol" ++ " (" ++ toString v ++
        ") must be less than " ++ toString (1e-4 : ℚ) ++ "."⟩, ?_, ?_, ?_, ?_⟩
      · unfold TolerancesMeta.rtol_set
        rw [hcr]
      · exact ⟨"Invalid ", " (" ++ toString v ++ ") must be less than " ++
          toString (1e-4 : ℚ) ++ ".", by simp only [String.append_assoc]⟩
      · exact ⟨"Invalid rtol (", ") must be less than " ++
          toString (1e-4 : ℚ) ++ ".", by simp only [String.append_assoc]; rfl⟩
      · exact ⟨"Invalid rtol (" ++ toString v ++ ") must be less than ", ".",
          by simp only [String.append_assoc]; rfl⟩

/-- Witness for C8 at the fresh store and `v = 2e-4` (above the maximum). -/
theorem C8_witness :
    (∃ e, (TolerancesMeta.atol_set TolerancesMeta.init (2e-4)).2 = some e ∧
      (∃ a b, e.message = a ++ "atol" ++ b) ∧
      (∃ a b, e.message = a ++ toString (2e-4 : ℚ) ++ b) ∧
      (∃ a b, e.message =
        a ++ (if (2e-4 : ℚ) < 0 then "non-negative" else toString (1e-4 : ℚ)) ++ b)) ∧
    (∃ e, (TolerancesMeta.rtol_set TolerancesMeta.init (2e-4)).2 = some e ∧
      (∃ a b, e.message = a ++ "rtol" ++ b) ∧
      (∃ a b, e.message = a ++ toString (2e-4 : ℚ) ++ b) ∧
      (∃ a b, e.message =
        a ++ (if (2e-4 : ℚ) < 0 then "non-negative" else toString (1e-4 : ℚ)) ++ b)) :=
  C8_rejection_error_carries_diagnostics TolerancesMeta.init (2e-4)
    rfl (Or.inr (by norm_num))

/-- C10: defining a sub-family runs the metaclass initializer again, so
the derived family starts from the library defaults (never the base
family's current values), and afterwards base and derived stores are
mutated independently. -/
theorem C10_subclass_reinitializes_and_is_independent
    (fams : FamilyMap) (base der : String) (v : ℚ) (hne : base ≠ der) :
    defineFamily fams der der = TolerancesMeta.init ∧
    (setFamilyAtol (defineFamily fams der) base v).1 der = TolerancesMeta.init ∧
    (setFamilyRtol (defineFamily fams der) base v).1 der = TolerancesMeta.init ∧
    (setFamilyAtol (defineFamily fams der) der v).1 base =
      defineFamily fams der base ∧
    (setFamilyRtol (defineFamily fams der) der v).1 base =
      defineFamily fams der base := by
  have hd : defineFamily fams der der = TolerancesMeta.init := by
    unfold defineFamily
    rw [Function.update_same]
  refine ⟨hd, ?_, ?_, ?_, ?_⟩ <;>
    simp [setFamilyAtol, setFamilyRtol, hd,
      Function.update_noteq hne, Function.update_noteq (Ne.symm hne)]

/-- Witness for C10 at the fresh family map, base `"Base"`, derived
`"Derived"`, and `v = 1e-6`. -/
theorem C10_witness :
    defineFamily initFams ("Derived") ("Derived") = TolerancesMeta.init ∧
    (setFamilyAtol (defineFamily initFams ("Derived")) ("Base") (1e-6)).1 ("Derived") =
      TolerancesMeta.init ∧
    (setFamilyRtol (defineFamily initFams ("Derived")) ("Base") (1e-6)).1 ("Derived") =
      TolerancesMeta.init ∧
    (setFamilyAtol (defineFamily initFams ("Derived")) ("Derived") (1e-6)).1 ("Base") =
      defineFamily initFams ("Derived") ("Base") ∧
    (setFamilyRtol (defineFamily initFams ("Derived")) ("Derived") (1e-6)).1 ("Base") =
      defineFamily initFams ("Derived") ("Base") :=
  C10_subclass_reinitializes_and_is_independent initFams ("Base") ("Derived") (1e-6)
    (by decide)
